import Mathlib

/-!
# Fractal Code — verification of the spec's claims against the source

Shallow embedding of the fractal-code repository's core: the SDK signature
engine (`src/sdk/src/reactor.ts`, signature module), the Reactor budget state
machine, the validator checks (`src/validator/src/checks/*`,
`circuit-breaker-check`), the `.fc` parser (`parse.ts` / `validate.ts`) and the
FractalClaw skill-loader stages that the claims reference.

JavaScript runtime values that the code inspects dynamically (truthiness,
`typeof`, `Number.isInteger`, `Infinity`, `NaN`) are modelled by an explicit
`JsNum` / `JSValue` datatype.  Strings are Lean `String`s; the string
operations the source uses (`startsWith`, `trim`, `slice`, default
`Array.sort`) are re-implemented over the character list so that every
definition is executable and kernel-reducible.  `crypto.createHash("sha256")`
is embedded as a genuine SHA-256 implementation over `Nat` words reduced
mod 2^32.
-/

/-! ## JavaScript number and value model -/

/-- A JavaScript number: a finite value (as a rational), `Infinity`,
`-Infinity`, or `NaN`. -/
inductive JsNum : Type where
  | fin (q : ℚ)
  | posInf
  | negInf
  | nan
deriving DecidableEq

/-- `Number.isInteger(n)` — true only for finite integral values. -/
def JsNum.isIntegerB : JsNum → Bool
  | .fin q => q.den == 1
  | _ => false

/-- The JS comparison `n <= 0` (false for `NaN`). -/
def JsNum.leZeroB : JsNum → Bool
  | .fin q => decide (q ≤ 0)
  | .posInf => false
  | .negInf => true
  | .nan => false

/-- The JS comparison `n < 0` (false for `NaN`). -/
def JsNum.ltZeroB : JsNum → Bool
  | .fin q => decide (q < 0)
  | .posInf => false
  | .negInf => true
  | .nan => false

/-- The JS comparison `n > 1_000_000` (false for `NaN`). -/
def JsNum.gtMillionB : JsNum → Bool
  | .fin q => decide ((1000000 : ℚ) < q)
  | .posInf => true
  | .negInf => false
  | .nan => false

/-- A JavaScript runtime value, as far as the embedded code inspects it. -/
inductive JSValue : Type where
  | undefined
  | null
  | bool (b : Bool)
  | num (n : JsNum)
  | str (s : String)
  | arr (elems : List JSValue)
  | obj (fields : List (String × JSValue))

/-- JS truthiness: `undefined`, `null`, `false`, `0`, `NaN` and `""` are
falsy; objects and arrays are always truthy. -/
def JSValue.truthy : JSValue → Bool
  | .undefined => false
  | .null => false
  | .bool b => b
  | .num n => match n with
    | .fin q => !(q == 0)
    | .nan => false
    | _ => true
  | .str s => !(s == "")
  | .arr _ => true
  | .obj _ => true

/-- `typeof v === "object"` — true for objects, arrays and `null`. -/
def JSValue.typeofObject : JSValue → Bool
  | .null => true
  | .arr _ => true
  | .obj _ => true
  | _ => false

/-- Property access `v.k`: a missing key, or access on a non-object, yields
`undefined`. -/
def JSValue.getField : JSValue → String → JSValue
  | .obj fields, k =>
    match fields.find? (fun f => f.1 == k) with
    | some f => f.2
    | none => .undefined
  | _, _ => .undefined

/-- `String(n)` for a JS number (non-integer formatting simplified to the
rational's numerator/denominator rendering; no claim inspects it). -/
def jsNumToString : JsNum → String
  | .fin q => if q.den == 1 then toString q.num else toString q
  | .posInf => "Infinity"
  | .negInf => "-Infinity"
  | .nan => "NaN"

/-- `String(v)` (array/object stringification simplified; no claim inspects
those cases). -/
def jsToString : JSValue → String
  | .undefined => "undefined"
  | .null => "null"
  | .bool b => if b then "true" else "false"
  | .num n => jsNumToString n
  | .str s => s
  | .arr _ => ""
  | .obj _ => "[object Object]"

/-- `String(v ?? "")` — the parser's idiom for optional string fields. -/
def jsStringOr (v : JSValue) : String :=
  match v with
  | .undefined => ""
  | .null => ""
  | _ => jsToString v

/-! ## Character-list string helpers (kernel-reducible models of the JS
string operations the source uses) -/

/-- `p` is a prefix of `s`, over character lists. -/
def charsPre : List Char → List Char → Bool
  | [], _ => true
  | _ :: _, [] => false
  | a :: as, b :: bs => a == b && charsPre as bs

/-- `s.startsWith(p)`. -/
def jsStartsWith (s p : String) : Bool :=
  charsPre p.data s.data

/-- `s.slice(k)`. -/
def jsSliceFrom (s : String) (k : Nat) : String :=
  String.mk (s.data.drop k)

/-- `s.slice(0, k)`. -/
def jsSliceTo (s : String) (k : Nat) : String :=
  String.mk (s.data.take k)

/-- A JS whitespace character (the ASCII ones; enough for `trim`). -/
def isWsChar (c : Char) : Bool :=
  c == ' ' || c == '\t' || c == '\n' || c == '\r'

/-- `s.trim()`. -/
def jsTrim (s : String) : String :=
  String.mk (((s.data.dropWhile isWsChar).reverse.dropWhile isWsChar).reverse)

/-- UTF-16-code-unit-wise `a <= b` on characters, as JS's default string
comparison uses (identical to codepoint order on the strings at hand). -/
def charsLe : List Char → List Char → Bool
  | [], _ => true
  | _ :: _, [] => false
  | a :: as, b :: bs =>
    if a.toNat < b.toNat then true
    else if b.toNat < a.toNat then false
    else charsLe as bs

/-- The string order JS's default `Array.prototype.sort` comparator induces. -/
def strLeProp (a b : String) : Prop := charsLe a.data b.data = true

instance : DecidableRel strLeProp := fun a b => by
  unfold strLeProp; infer_instance

/-- `[...].sort()` on an array of strings. -/
def jsSortStr (l : List String) : List String :=
  List.insertionSort strLeProp l

/-! ## SHA-256 (`crypto.createHash("sha256").update(data, "utf8").digest("hex")`) -/

/-- 2^32, the word modulus. -/
def M32 : Nat := 4294967296

/-- Addition mod 2^32. -/
def add32 (a b : Nat) : Nat := (a + b) % M32

/-- Right rotation of a 32-bit word. -/
def rotr32 (x n : Nat) : Nat := x / 2 ^ n + x % 2 ^ n * 2 ^ (32 - n)

/-- Logical right shift of a 32-bit word. -/
def shr32 (x n : Nat) : Nat := x / 2 ^ n

/-- Bitwise complement of a 32-bit word. -/
def not32 (x : Nat) : Nat := x ^^^ (M32 - 1)

/-- SHA-256 Ch. -/
def shaCh (x y z : Nat) : Nat := (x &&& y) ^^^ (not32 x &&& z)

/-- SHA-256 Maj. -/
def shaMaj (x y z : Nat) : Nat := (x &&& y) ^^^ (x &&& z) ^^^ (y &&& z)

/-- SHA-256 Σ₀. -/
def bsig0 (x : Nat) : Nat := rotr32 x 2 ^^^ rotr32 x 13 ^^^ rotr32 x 22

/-- SHA-256 Σ₁. -/
def bsig1 (x : Nat) : Nat := rotr32 x 6 ^^^ rotr32 x 11 ^^^ rotr32 x 25

/-- SHA-256 σ₀. -/
def ssig0 (x : Nat) : Nat := rotr32 x 7 ^^^ rotr32 x 18 ^^^ shr32 x 3

/-- SHA-256 σ₁. -/
def ssig1 (x : Nat) : Nat := rotr32 x 17 ^^^ rotr32 x 19 ^^^ shr32 x 10

/-- The 64 SHA-256 round constants. -/
def shaK : List Nat :=
  [1116352408, 1899447441, 3049323471, 3921009573, 961987163, 1508970993,
   2453635748, 2870763221, 3624381080, 310598401, 607225278, 1426881987,
   1925078388, 2162078206, 2614888103, 3248222580, 3835390401, 4022224774,
   264347078, 604807628, 770255983, 1249150122, 1555081692, 1996064986,
   2554220882, 2821834349, 2952996808, 3210313671, 3336571891, 3584528711,
   113926993, 338241895, 666307205, 773529912, 1294757372, 1396182291,
   1695183700, 1986661051, 2177026350, 2456956037, 2730485921, 2820302411,
   3259730800, 3345764771, 3516065817, 3600352804, 4094571909, 275423344,
   430227734, 506948616, 659060556, 883997877, 958139571, 1322822218,
   1537002063, 1747873779, 1955562222, 2024104815, 2227730452, 2361852424,
   2428436474, 2756734187, 3204031479, 3329325298]

/-- The eight working/state words of the hash. -/
structure Hash8 : Type where
  h0 : Nat
  h1 : Nat
  h2 : Nat
  h3 : Nat
  h4 : Nat
  h5 : Nat
  h6 : Nat
  h7 : Nat
deriving DecidableEq

/-- SHA-256 initial hash value. -/
def shaH0 : Hash8 :=
  ⟨1779033703, 3144134277, 1013904242, 2773480762,
   1359893119, 2600822924, 528734635, 1541459225⟩

/-- The next message-schedule word from the last 16. -/
def nextW (w : List Nat) : Nat :=
  add32 (add32 (ssig1 (w.getD (w.length - 2) 0)) (w.getD (w.length - 7) 0))
        (add32 (ssig0 (w.getD (w.length - 15) 0)) (w.getD (w.length - 16) 0))

/-- Extend the 16 block words to the 64 schedule words. -/
def buildW (w16 : List Nat) : List Nat :=
  (List.range 48).foldl (fun w _ => w ++ [nextW w]) w16

/-- One SHA-256 round. -/
def shaRound (r : Hash8) (kw : Nat × Nat) : Hash8 :=
  let t1 := add32 (add32 (add32 r.h7 (bsig1 r.h4)) (add32 (shaCh r.h4 r.h5 r.h6) kw.1)) kw.2
  let t2 := add32 (bsig0 r.h0) (shaMaj r.h0 r.h1 r.h2)
  ⟨add32 t1 t2, r.h0, r.h1, r.h2, add32 r.h3 t1, r.h4, r.h5, r.h6⟩

/-- Compress one 512-bit block (given as its 16 words) into the state. -/
def compressBlock (st : Hash8) (w16 : List Nat) : Hash8 :=
  let fin := (shaK.zip (buildW w16)).foldl shaRound st
  ⟨add32 st.h0 fin.h0, add32 st.h1 fin.h1, add32 st.h2 fin.h2, add32 st.h3 fin.h3,
   add32 st.h4 fin.h4, add32 st.h5 fin.h5, add32 st.h6 fin.h6, add32 st.h7 fin.h7⟩

/-- SHA-256 padding: append `0x80`, zeros to 56 mod 64, and the bit length
as 8 big-endian bytes. -/
def padMessage (msg : List Nat) : List Nat :=
  let bitLen := msg.length * 8
  let zeros := (119 - msg.length % 64) % 64
  msg ++ [0x80] ++ List.replicate zeros 0 ++
    [bitLen / 2 ^ 56 % 256, bitLen / 2 ^ 48 % 256, bitLen / 2 ^ 40 % 256, bitLen / 2 ^ 32 % 256,
     bitLen / 2 ^ 24 % 256, bitLen / 2 ^ 16 % 256, bitLen / 2 ^ 8 % 256, bitLen % 256]

/-- Group bytes into big-endian 32-bit words. -/
def bytesToWords : List Nat → List Nat
  | a :: b :: c :: d :: rest => (a * 2 ^ 24 + b * 2 ^ 16 + c * 2 ^ 8 + d) :: bytesToWords rest
  | _ => []

/-- Split a byte list into 64-byte blocks (structural recursion on a fuel
bound so the kernel can evaluate it; the fuel never runs out because every
step consumes at least one byte). -/
def chunks64Fuel : Nat → List Nat → List (List Nat)
  | 0, _ => []
  | _, [] => []
  | fuel + 1, x :: xs => (x :: xs).take 64 :: chunks64Fuel fuel ((x :: xs).drop 64)

/-- Split a byte list into 64-byte blocks. -/
def chunks64 (l : List Nat) : List (List Nat) :=
  chunks64Fuel l.length l

/-- UTF-8 encoding of one character. -/
def utf8Char (c : Char) : List Nat :=
  let n := c.toNat
  if n < 128 then [n]
  else if n < 2048 then [192 + n / 64, 128 + n % 64]
  else if n < 65536 then [224 + n / 4096, 128 + n / 64 % 64, 128 + n % 64]
  else [240 + n / 262144, 128 + n / 4096 % 64, 128 + n / 64 % 64, 128 + n % 64]

/-- UTF-8 encoding of a string (the `update(data, "utf8")` step). -/
def utf8Bytes (s : String) : List Nat :=
  s.data.flatMap utf8Char

/-- Run SHA-256 over a byte message. -/
def sha256Core (msg : List Nat) : Hash8 :=
  (chunks64 (padMessage msg)).foldl (fun st blk => compressBlock st (bytesToWords blk)) shaH0

/-- A 32-bit word as 4 big-endian bytes. -/
def wordToBytes (w : Nat) : List Nat :=
  [w / 2 ^ 24 % 256, w / 2 ^ 16 % 256, w / 2 ^ 8 % 256, w % 256]

/-- The 32 digest bytes of a final state. -/
def digestBytes (st : Hash8) : List Nat :=
  wordToBytes st.h0 ++ wordToBytes st.h1 ++ wordToBytes st.h2 ++ wordToBytes st.h3 ++
  wordToBytes st.h4 ++ wordToBytes st.h5 ++ wordToBytes st.h6 ++ wordToBytes st.h7

/-- One lowercase hex digit. -/
def hexDigit : Nat → Char
  | 0 => '0'
  | 1 => '1'
  | 2 => '2'
  | 3 => '3'
  | 4 => '4'
  | 5 => '5'
  | 6 => '6'
  | 7 => '7'
  | 8 => '8'
  | 9 => '9'
  | 10 => 'a'
  | 11 => 'b'
  | 12 => 'c'
  | 13 => 'd'
  | 14 => 'e'
  | _ => 'f'

/-- Lowercase hex encoding of a byte list (the `digest("hex")` step). -/
def bytesToHex (bs : List Nat) : String :=
  String.mk (bs.flatMap (fun b => [hexDigit (b / 16), hexDigit (b % 16)]))

/-- `sha256(data)` — hex digest of the UTF-8 bytes of a string, mirroring
the source's `sha256` helper in `src/sdk/src/signature.ts`. -/
def sha256 (data : String) : String :=
  bytesToHex (digestBytes (sha256Core (utf8Bytes data)))

set_option maxRecDepth 10000 in
/-- Sanity: the embedded SHA-256 reproduces the standard "abc" test vector. -/
theorem sha256_abc :
    sha256 "abc" = "ba7816bf8f01cfea414140de5dae2223b00361a396177a9cb410ff61f20015ad" := by
  decide

/-! ## Order facts about the JS string sort -/

/-- Strings with the same character data are equal. -/
theorem stringDataEq {a b : String} (h : a.data = b.data) : a = b := by
  cases a; cases b; simp_all

/-- Characters with the same code point are equal. -/
theorem charToNatEq {a b : Char} (h : a.toNat = b.toNat) : a = b := by
  cases a; cases b
  simp only [Char.toNat] at h
  congr 1
  exact UInt32.ext h

/-- `charsLe` is total. -/
theorem charsLe_total : ∀ (a b : List Char), charsLe a b = true ∨ charsLe b a = true
  | [], _ => Or.inl rfl
  | _ :: _, [] => Or.inr rfl
  | a :: as, b :: bs => by
    rcases Nat.lt_trichotomy a.toNat b.toNat with hab | hab | hab
    · left; simp [charsLe, hab]
    · rcases charsLe_total as bs with h | h
      · left; simp [charsLe, hab, h]
      · right; simp [charsLe, hab.symm, h]
    · right; simp [charsLe, hab]

/-- `charsLe` is transitive. -/
theorem charsLe_trans :
    ∀ (a b c : List Char), charsLe a b = true → charsLe b c = true → charsLe a c = true
  | [], _, _, _, _ => rfl
  | _ :: _, [], _, h1, _ => by simp [charsLe] at h1
  | _ :: _, _ :: _, [], _, h2 => by simp [charsLe] at h2
  | a :: as, b :: bs, c :: cs, h1, h2 => by
    rcases Nat.lt_trichotomy a.toNat b.toNat with hab | hab | hab
    · rcases Nat.lt_trichotomy b.toNat c.toNat with hbc | hbc | hbc
      · simp [charsLe, lt_trans hab hbc]
      · simp [charsLe, hbc ▸ hab]
      · simp [charsLe, Nat.lt_asymm hbc, hbc] at h2
    · rcases Nat.lt_trichotomy b.toNat c.toNat with hbc | hbc | hbc
      · simp [charsLe, hab ▸ hbc]
      · simp only [charsLe, hab, hbc, lt_irrefl, if_false] at h1 h2 ⊢
        exact charsLe_trans as bs cs h1 h2
      · simp [charsLe, Nat.lt_asymm hbc, hbc] at h2
    · simp [charsLe, Nat.lt_asymm hab, hab] at h1

/-- `charsLe` is antisymmetric. -/
theorem charsLe_antisymm :
    ∀ (a b : List Char), charsLe a b = true → charsLe b a = true → a = b
  | [], [], _, _ => rfl
  | [], _ :: _, _, h2 => by simp [charsLe] at h2
  | _ :: _, [], h1, _ => by simp [charsLe] at h1
  | a :: as, b :: bs, h1, h2 => by
    rcases Nat.lt_trichotomy a.toNat b.toNat with hab | hab | hab
    · simp [charsLe, Nat.lt_asymm hab, hab] at h2
    · rw [charsLe, if_neg (by omega), if_neg (by omega)] at h1
      rw [charsLe, if_neg (by omega), if_neg (by omega)] at h2
      rw [charToNatEq hab, charsLe_antisymm as bs h1 h2]
    · simp [charsLe, Nat.lt_asymm hab, hab] at h1

instance : IsTotal String strLeProp := ⟨fun a b => charsLe_total a.data b.data⟩

instance : IsTrans String strLeProp :=
  ⟨fun a b c h1 h2 => charsLe_trans a.data b.data c.data h1 h2⟩

instance : IsAntisymm String strLeProp :=
  ⟨fun a b h1 h2 => stringDataEq (charsLe_antisymm a.data b.data h1 h2)⟩

/-- Sorting with the JS comparator is invariant under permutation of the
input list. -/
theorem jsSortStr_perm_eq {l l' : List String} (h : l.Perm l') :
    jsSortStr l = jsSortStr l' :=
  List.eq_of_perm_of_sorted
    ((List.perm_insertionSort strLeProp l).trans
      (h.trans (List.perm_insertionSort strLeProp l').symm))
    (List.sorted_insertionSort strLeProp l)
    (List.sorted_insertionSort strLeProp l')

/-! ## JSON values and `JSON.stringify` (for the schema fields) -/

/-- A JSON document, as stored in a cell's `input.schema` / `output.schema`. -/
inductive Json : Type where
  | null
  | bool (b : Bool)
  | num (n : Int)
  | str (s : String)
  | arr (elems : List Json)
  | obj (fields : List (String × Json))

/-- Escape one character for a JSON string literal (quote and backslash;
enough for the schema strings at hand). -/
def jsonEscapeChar (c : Char) : String :=
  if c = '"' then "\\\"" else if c = '\\' then "\\\\" else String.mk [c]

/-- Escape a string for embedding in JSON output. -/
def jsonEscape (s : String) : String :=
  String.join (s.data.map jsonEscapeChar)

/-- Join pre-rendered JSON fragments with commas. -/
def jsonCommaJoin : List String → String
  | [] => ""
  | [x] => x
  | x :: y :: rest => x ++ "," ++ jsonCommaJoin (y :: rest)

mutual

/-- `JSON.stringify` of a JSON value. -/
def Json.stringify : Json → String
  | .null => "null"
  | .bool b => if b then "true" else "false"
  | .num n => toString n
  | .str s => "\"" ++ jsonEscape s ++ "\""
  | .arr elems => "[" ++ jsonCommaJoin (jsonStringifyList elems) ++ "]"
  | .obj fields => "\x7b" ++ jsonCommaJoin (jsonStringifyFields fields) ++ "\x7d"

/-- Stringify the elements of a JSON array. -/
def jsonStringifyList : List Json → List String
  | [] => []
  | x :: rest => Json.stringify x :: jsonStringifyList rest

/-- Stringify the fields of a JSON object. -/
def jsonStringifyFields : List (String × Json) → List String
  | [] => []
  | (k, v) :: rest => ("\"" ++ jsonEscape k ++ "\":" ++ Json.stringify v) :: jsonStringifyFields rest

end

/-! ## Cell model (shared by the SDK and the validator, whose type
declarations mirror each other field for field) -/

/-- `CellIdentity` (`contract.ts` / validator `types/cell.ts`).  `cellType`
is a runtime string (`"transformer" | "reactor" | "keeper" | "channel"`). -/
structure CellIdentity : Type where
  name : String
  cellType : String
  version : String
deriving DecidableEq

/-- `CellInput` / `CellOutput`: a JSON schema plus a description. -/
structure CellIO : Type where
  schema : Json
  description : String

/-- `CellLineage` — the Intent Ledger record. -/
structure CellLineage : Type where
  source : String
  trigger : String
  justification : String
  signature : String
deriving DecidableEq

/-- `CellSignature` — the structural signature.  `children` is the optional
sorted child-hash list. -/
structure CellSignature : Type where
  hash : String
  children : Option (List String)
  timestamp : String
deriving DecidableEq

/-- The fields of `UniversalContract` that the signature engine reads. -/
structure SCell : Type where
  identity : CellIdentity
  input : CellIO
  output : CellIO
  lineage : CellLineage
  signature : CellSignature

/-! ## Signature engine (`src/sdk/src/signature.ts`) -/

/-- `cellContent(cell)` — the concatenation of the cell's own content
fields, exactly as in the source. -/
def cellContent (cell : SCell) : String :=
  cell.identity.name ++
  cell.identity.cellType ++
  cell.identity.version ++
  Json.stringify cell.input.schema ++
  Json.stringify cell.output.schema ++
  cell.lineage.source ++
  cell.lineage.trigger ++
  cell.lineage.justification

/-- `computeLeafSignature(cell)`.  The `new Date().toISOString()` timestamp
is environment input and is passed explicitly as `now`. -/
def computeLeafSignature (cell : SCell) (now : String) : CellSignature :=
  { hash := sha256 (cellContent cell), children := none, timestamp := now }

/-- `computeComposedSignature(cell, childSignatures)`. -/
def computeComposedSignature (cell : SCell) (childSignatures : List CellSignature)
    (now : String) : CellSignature :=
  let sortedChildHashes := jsSortStr (childSignatures.map CellSignature.hash)
  { hash := sha256 (cellContent cell ++ String.join sortedChildHashes),
    children := some sortedChildHashes,
    timestamp := now }

/-- `verifySignature(cell, childSignatures?)` — recompute and compare to the
stored hash. -/
def verifySignature (cell : SCell) (childSignatures : Option (List CellSignature))
    (now : String) : Bool :=
  let fresh :=
    match childSignatures with
    | some cs =>
      if 0 < cs.length then computeComposedSignature cell cs now
      else computeLeafSignature cell now
    | none => computeLeafSignature cell now
  fresh.hash == cell.signature.hash

/-- `Reactor.computeSignature()` — leaf signature for a childless cell,
composed signature over the children's stored signatures otherwise. -/
def computeCellSignature (cell : SCell) (childSigs : List CellSignature)
    (now : String) : CellSignature :=
  if childSigs.isEmpty then computeLeafSignature cell now
  else computeComposedSignature cell childSigs now

/-! ## Reactor budget state machine (`src/sdk/src/reactor.ts`) -/

/-- `DEFAULT_COMPLEXITY_BUDGET` from `contract.ts`. -/
def DEFAULT_COMPLEXITY_BUDGET : Int := 1000

/-- The budget-relevant state of a `Reactor` instance.  `handlerCalls`
counts how many times the wrapped handler has actually been invoked. -/
structure ReactorState : Type where
  name : String
  maxBudget : Int
  complexityBudget : Int
  handlerCalls : Nat
deriving DecidableEq

/-- The `Reactor` constructor's budget initialisation:
`_maxBudget = config.complexityBudget ?? DEFAULT_COMPLEXITY_BUDGET`,
`_complexityBudget = _maxBudget`. -/
def Reactor.create (name : String) (complexityBudget : Option Int) : ReactorState :=
  let mb := complexityBudget.getD DEFAULT_COMPLEXITY_BUDGET
  { name := name, maxBudget := mb, complexityBudget := mb, handlerCalls := 0 }

/-- The Safe-Mode error message thrown by `Reactor.on`. -/
def safeModeMessage (name : String) : String :=
  "[Circuit Breaker] Reactor \"" ++ name ++ "\" is in Safe-Mode — complexity budget exhausted"

/-- One attempt at `Reactor.on(event)`: throw (leaving the state unchanged
and the handler uninvoked) when the budget is exhausted, otherwise decrement
and run the handler. -/
def Reactor.onCall (r : ReactorState) : Except String Unit × ReactorState :=
  if r.complexityBudget ≤ 0 then (.error (safeModeMessage r.name), r)
  else (.ok (),
    { r with complexityBudget := r.complexityBudget - 1, handlerCalls := r.handlerCalls + 1 })

/-- `Reactor.resetBudget()`. -/
def Reactor.resetBudget (r : ReactorState) : ReactorState :=
  { r with complexityBudget := r.maxBudget }

/-- The `budgetRemaining` getter. -/
def Reactor.budgetRemaining (r : ReactorState) : Int :=
  r.complexityBudget

/-- The state after `k` successive `on()` attempts. -/
def Reactor.onIterate (r : ReactorState) : Nat → ReactorState
  | 0 => r
  | k + 1 => (Reactor.onCall (Reactor.onIterate r k)).2

/-! ## Validator model (`src/validator/src/types/cell.ts`) -/

/-- `ContextMapEntry` — the published context map of a cell. -/
structure ContextMapEntry : Type where
  identity : CellIdentity
  parent : Option String
  children : Option (List String)
  channels : Option (List String)
  signature : String
deriving DecidableEq

/-- `CellHealth` as the circuit-breaker check reads it: the status string
and the (dynamically typed) `budgetRemaining` property; the optional
`message`/`children` fields are never read by the embedded checks. -/
structure CellHealth : Type where
  status : String
  budgetRemaining : Option JSValue

/-- `DiscoveredCell` — the validator's view of a loaded cell tree. -/
inductive DCell : Type where
  | mk
    (filePath : String)
    (identity : CellIdentity)
    (input : CellIO)
    (output : CellIO)
    (lineage : CellLineage)
    (signature : CellSignature)
    (contextMap : ContextMapEntry)
    (children : List DCell)
    (hasHealthMethod : Bool)
    (hasToMapMethod : Bool)
    (healthReport : Option CellHealth)

def DCell.filePath : DCell → String
  | .mk fp _ _ _ _ _ _ _ _ _ _ => fp

def DCell.identity : DCell → CellIdentity
  | .mk _ id _ _ _ _ _ _ _ _ _ => id

def DCell.input : DCell → CellIO
  | .mk _ _ inp _ _ _ _ _ _ _ _ => inp

def DCell.output : DCell → CellIO
  | .mk _ _ _ outp _ _ _ _ _ _ _ => outp

def DCell.lineage : DCell → CellLineage
  | .mk _ _ _ _ lin _ _ _ _ _ _ => lin

def DCell.signature : DCell → CellSignature
  | .mk _ _ _ _ _ sig _ _ _ _ _ => sig

def DCell.contextMap : DCell → ContextMapEntry
  | .mk _ _ _ _ _ _ ctx _ _ _ _ => ctx

def DCell.children : DCell → List DCell
  | .mk _ _ _ _ _ _ _ ch _ _ _ => ch

def DCell.hasHealthMethod : DCell → Bool
  | .mk _ _ _ _ _ _ _ _ hh _ _ => hh

def DCell.hasToMapMethod : DCell → Bool
  | .mk _ _ _ _ _ _ _ _ _ htm _ => htm

def DCell.healthReport : DCell → Option CellHealth
  | .mk _ _ _ _ _ _ _ _ _ _ hr => hr

/-- The signature-engine view of a discovered cell (same fields, so the
validator's recomputation ranges over the same content). -/
def toSCell (d : DCell) : SCell :=
  { identity := d.identity, input := d.input, output := d.output,
    lineage := d.lineage, signature := d.signature }

/-- A single validation violation. -/
structure Violation : Type where
  cell : String
  file : String
  message : String
  principle : String
deriving DecidableEq

/-- The result of one check. -/
structure CheckResult : Type where
  checkName : String
  passed : Bool
  violations : List Violation
deriving DecidableEq

/-! ## `SHA256_REGEX` and hex-format facts -/

/-- `[0-9a-f]` on a single character. -/
def isLowerHexDigitB (c : Char) : Bool :=
  (48 ≤ c.toNat && c.toNat ≤ 57) || (97 ≤ c.toNat && c.toNat ≤ 102)

/-- `SHA256_REGEX.test(s)` — `/^[0-9a-f]{64}$/`. -/
def isHex64 (s : String) : Bool :=
  s.length == 64 && s.data.all isLowerHexDigitB

/-- Every output of `hexDigit` is a lowercase hex digit. -/
theorem hexDigit_isHex : ∀ (n : Nat), isLowerHexDigitB (hexDigit n) = true
  | 0 => by decide
  | 1 => by decide
  | 2 => by decide
  | 3 => by decide
  | 4 => by decide
  | 5 => by decide
  | 6 => by decide
  | 7 => by decide
  | 8 => by decide
  | 9 => by decide
  | 10 => by decide
  | 11 => by decide
  | 12 => by decide
  | 13 => by decide
  | 14 => by decide
  | _ + 15 => rfl

/-- Every character of a hex encoding is a lowercase hex digit. -/
theorem bytesToHex_all (bs : List Nat) :
    (bytesToHex bs).data.all isLowerHexDigitB = true := by
  rw [List.all_eq_true]
  intro c hc
  simp only [bytesToHex, List.mem_flatMap] at hc
  obtain ⟨b, _, hmem⟩ := hc
  simp only [List.mem_cons, List.mem_singleton, List.not_mem_nil, or_false] at hmem
  rcases hmem with h | h
  · exact h ▸ hexDigit_isHex _
  · exact h ▸ hexDigit_isHex _

/-- Hex encoding doubles the byte count. -/
theorem bytesToHex_length (bs : List Nat) :
    (bytesToHex bs).length = 2 * bs.length := by
  induction bs with
  | nil => rfl
  | cons b rest ih =>
    simp only [bytesToHex, String.length, List.flatMap_cons, List.length_append,
      List.length_cons, List.length_nil] at *
    omega

/-- A digest always has 32 bytes. -/
theorem digestBytes_length (st : Hash8) : (digestBytes st).length = 32 := by
  simp [digestBytes, wordToBytes]

/-- The SHA-256 hex digest always matches `SHA256_REGEX`. -/
theorem isHex64_sha256 (s : String) : isHex64 (sha256 s) = true := by
  unfold isHex64 sha256
  rw [Bool.and_eq_true, beq_iff_eq, bytesToHex_length, digestBytes_length]
  exact ⟨rfl, bytesToHex_all _⟩

/-- The SHA-256 hex digest is never the empty string. -/
theorem sha256_ne_empty (s : String) : sha256 s ≠ "" := by
  intro h
  have hl : (sha256 s).length = 64 := by
    unfold sha256
    rw [bytesToHex_length, digestBytes_length]
  rw [h] at hl
  exact absurd hl (by decide)

/-! ## `signatureCheck` (`src/validator/src/checks/signature-check.ts`) -/

/-- `recomputeHash(cell)` — the validator's re-derivation of a cell's hash
from its contract fields and, when composed, its children's stored hashes. -/
def recomputeHash (cell : DCell) : String :=
  let ownContent :=
    cell.identity.name ++
    cell.identity.cellType ++
    cell.identity.version ++
    Json.stringify cell.input.schema ++
    Json.stringify cell.output.schema ++
    cell.lineage.source ++
    cell.lineage.trigger ++
    cell.lineage.justification
  if cell.children.isEmpty then sha256 ownContent
  else
    sha256 (ownContent ++
      String.join (jsSortStr (cell.children.map (fun c => c.signature.hash))))

/-- The hash-format guard `!cell.signature.hash || !SHA256_REGEX.test(...)`
(a failing cell is reported and skipped via `continue`). -/
def sigBadFormat (sig : CellSignature) : Bool :=
  sig.hash == "" || !(isHex64 sig.hash)

/-- Message of the invalid-format violation. -/
def sigFormatMessage (storedHash : String) : String :=
  "Invalid signature hash format: \"" ++ jsSliceTo storedHash 20 ++ "...\""

/-- Message of the signature-mismatch violation. -/
def sigMismatchMessage (stored expected : String) : String :=
  "Signature mismatch: stored " ++ jsSliceTo stored 16 ++ "... != computed " ++
    jsSliceTo expected 16 ++ "..."

/-- Message of the children-count-mismatch violation. -/
def sigCountMessage (inSig actual : Nat) : String :=
  "Signature children count mismatch: " ++ toString inSig ++ " in signature vs " ++
    toString actual ++ " actual"

/-- Message of the per-index child-hash-mismatch violation. -/
def sigIndexMessage (i : Nat) : String :=
  "Signature children hash mismatch at index " ++ toString i

/-- The `for` loop comparing stored and recomputed child hashes, carrying
the running index `i`. -/
def firstMismatchIdxAux : Nat → List String → List String → Option Nat
  | _, [], _ => none
  | _, _ :: _, [] => none
  | i, a :: as, b :: bs => if !(a == b) then some i else firstMismatchIdxAux (i + 1) as bs

/-- The first index at which the stored and recomputed child-hash lists
differ, if any (the loop `break`s after the first). -/
def firstMismatchIdx (sigChildren sorted : List String) : Option Nat :=
  firstMismatchIdxAux 0 sigChildren sorted

/-- The violations `signatureCheck` raises for one cell after the format
guard has passed: hash comparison, child-list comparison, timestamp. -/
def sigCheckBody (c : DCell) : List Violation :=
  (if !(c.signature.hash == recomputeHash c)
   then [⟨c.identity.name, c.filePath, sigMismatchMessage c.signature.hash (recomputeHash c), "X"⟩]
   else []) ++
  (if 0 < c.children.length then
    (let sorted := jsSortStr (c.children.map (fun k => k.signature.hash))
     let sigChildren := c.signature.children.getD []
     if !(sigChildren.length == sorted.length)
     then [⟨c.identity.name, c.filePath, sigCountMessage sigChildren.length sorted.length, "X"⟩]
     else
       match firstMismatchIdx sigChildren sorted with
       | some i => [⟨c.identity.name, c.filePath, sigIndexMessage i, "X"⟩]
       | none => [])
   else []) ++
  (if c.signature.timestamp == ""
   then [⟨c.identity.name, c.filePath, "Missing signature.timestamp", "X"⟩]
   else [])

/-- The violations `signatureCheck` raises for one cell (format guard
included). -/
def sigCheckOwn (c : DCell) : List Violation :=
  if sigBadFormat c.signature
  then [⟨c.identity.name, c.filePath, sigFormatMessage c.signature.hash, "X"⟩]
  else sigCheckBody c

mutual

/-- One iteration of the `signatureCheck` loop: the cell's own violations,
then (unless the format guard `continue`d) the recursion into its children. -/
def sigCheckCell : DCell → List Violation
  | .mk fp id inp outp lin sig ctx ch hh htm hr =>
    sigCheckOwn (.mk fp id inp outp lin sig ctx ch hh htm hr) ++
      (if !(sigBadFormat sig) && 0 < ch.length then sigCheckCells ch else [])

/-- `signatureCheck`'s traversal over a list of cells. -/
def sigCheckCells : List DCell → List Violation
  | [] => []
  | c :: rest => sigCheckCell c ++ sigCheckCells rest

end

/-- `signatureCheck(cells)`. -/
def signatureCheck (cells : List DCell) : CheckResult :=
  { checkName := "Signature Check",
    passed := (sigCheckCells cells).isEmpty,
    violations := sigCheckCells cells }

/-! ## `compositionCheck` (`src/validator/src/checks/composition-check.ts`) -/

/-- The non-Channel children of a cell. -/
def nonChannelChildren (c : DCell) : List DCell :=
  c.children.filter (fun k => !(k.identity.cellType == "channel"))

/-- The Channel children of a cell. -/
def channelChildren (c : DCell) : List DCell :=
  c.children.filter (fun k => k.identity.cellType == "channel")

/-- The mediated-communication violation message. -/
def topoMessage (n : Nat) : String :=
  "Cell has " ++ toString n ++
    " non-channel children but no Channel to mediate communication. " ++
    "All sibling communication must pass through Channels."

/-- Message for a child missing from the context map. -/
def ctxChildMessage (childName : String) : String :=
  "Child \"" ++ childName ++ "\" exists but is not listed in parent's context map"

/-- Message for a channel child missing from the context map's channel list. -/
def ctxChannelMessage (chanName : String) : String :=
  "Channel \"" ++ chanName ++ "\" exists as a child but is not listed in parent's context map channels"

/-- The context-map consistency part of `compositionCheck`'s loop body. -/
def compositionCtxViols (c : DCell) : List Violation :=
  ((c.children.map (fun k => k.identity.name)).filterMap (fun childName =>
    if (c.contextMap.children.getD []).contains childName then none
    else some ⟨c.identity.name, c.filePath, ctxChildMessage childName, "III"⟩)) ++
  (((channelChildren c).map (fun k => k.identity.name)).filterMap (fun chanName =>
    if (c.contextMap.channels.getD []).contains chanName then none
    else some ⟨c.identity.name, c.filePath, ctxChannelMessage chanName, "III"⟩))

/-- The violations `compositionCheck`'s loop body raises for one cell with
children (topology rule, then context-map consistency). -/
def compositionOwn (c : DCell) : List Violation :=
  (if 2 ≤ (nonChannelChildren c).length ∧ (channelChildren c).length = 0
   then [⟨c.identity.name, c.filePath, topoMessage (nonChannelChildren c).length, "III"⟩]
   else []) ++
  compositionCtxViols c

mutual

/-- One iteration of the `compositionCheck` loop (childless cells are
skipped entirely by `continue`). -/
def compositionCell : DCell → List Violation
  | .mk fp id inp outp lin sig ctx ch hh htm hr =>
    if ch.isEmpty then []
    else compositionOwn (.mk fp id inp outp lin sig ctx ch hh htm hr) ++
      compositionRecurse ch

/-- The recursion into children: `compositionCheck([child])` for every
child that itself has children. -/
def compositionRecurse : List DCell → List Violation
  | [] => []
  | k :: rest =>
    (if 0 < k.children.length then compositionCell k else []) ++ compositionRecurse rest

end

/-- `compositionCheck`'s traversal over the top-level cell list. -/
def compositionCells (cells : List DCell) : List Violation :=
  cells.flatMap compositionCell

/-- `compositionCheck(cells)`. -/
def compositionCheck (cells : List DCell) : CheckResult :=
  { checkName := "Composition Check",
    passed := (compositionCells cells).isEmpty,
    violations := compositionCells cells }

/-! ## `circuitBreakerCheck` (`checks/circuit-breaker-check.ts`) -/

/-- `typeof v !== "number" || v < 0` — the rejected budget values. -/
def cbBadValue : JSValue → Bool
  | .num n => n.ltZeroB
  | _ => true

/-- The violations `circuitBreakerCheck`'s `check` raises for one cell
(before recursing into its children). -/
def cbOwn (c : DCell) : List Violation :=
  if c.identity.cellType == "transformer" || c.identity.cellType == "reactor" then
    (if !c.hasHealthMethod then
      [⟨c.identity.name, c.filePath,
        c.identity.cellType ++ " lacks health() method — cannot report circuit breaker status", "II"⟩]
     else
      match c.healthReport with
      | some hr =>
        if hr.budgetRemaining.isNone then
          [⟨c.identity.name, c.filePath,
            c.identity.cellType ++ " health() does not report budgetRemaining — circuit breaker not implemented", "II"⟩]
        else []
      | none => []) ++
    (match c.healthReport with
     | some hr =>
       match hr.budgetRemaining with
       | some v =>
         if cbBadValue v then
           [⟨c.identity.name, c.filePath,
             "budgetRemaining must be a non-negative number, got: " ++ jsToString v, "II"⟩]
         else []
       | none => []
     | none => [])
  else []

mutual

/-- `circuitBreakerCheck`'s recursive `check(cell)`. -/
def cbCheckCell : DCell → List Violation
  | .mk fp id inp outp lin sig ctx ch hh htm hr =>
    cbOwn (.mk fp id inp outp lin sig ctx ch hh htm hr) ++ cbCheckCells ch

/-- `check` over a list of cells. -/
def cbCheckCells : List DCell → List Violation
  | [] => []
  | c :: rest => cbCheckCell c ++ cbCheckCells rest

end

/-- `circuitBreakerCheck(cells)`. -/
def circuitBreakerCheck (cells : List DCell) : CheckResult :=
  { checkName := "Circuit Breaker Check",
    passed := (cbCheckCells cells).isEmpty,
    violations := cbCheckCells cells }

/-! ## `.fc` parser model (`src/parser/src/parse.ts`) -/

/-- `CellIdentity` on the parser side (`identity.type` keeps the raw string,
e.g. `"Transformer"`). -/
structure PIdentity : Type where
  name : String
  version : String
  type : String
deriving DecidableEq

/-- `lineage` section of a parsed cell. -/
structure PLineage : Type where
  source : String
  trigger : String
  justification : String
  parent_context_hash : String
deriving DecidableEq

/-- `logic` section of a parsed cell. -/
structure PLogic : Type where
  lang : String
  process : Option String
  onBody : Option String
  get : Option String
  set : Option String
  del : Option String
deriving DecidableEq

/-- `circuit_breaker` spec of a parsed contract. -/
structure CircuitBreakerSpec : Type where
  complexity_budget : JsNum
  safe_mode_action : String
deriving DecidableEq

/-- The kind-specific contract union of a parsed cell.  The defensive JS
accesses (`contract?.circuit_breaker`) are modelled by keeping the breaker
spec optional. -/
inductive PContract : Type where
  | transformer (input output : String) (circuit_breaker : Option CircuitBreakerSpec)
  | reactor (listens_to emits : String) (circuit_breaker : Option CircuitBreakerSpec)
  | keeper (state_schema : String) (operations : List String)
      (circuit_breaker : Option CircuitBreakerSpec)
  | channel (carries mode : String) (buffer_size : JsNum)
      (circuit_breaker : Option CircuitBreakerSpec)
deriving DecidableEq

/-- The `circuit_breaker` field of any contract variant. -/
def PContract.circuit_breaker : PContract → Option CircuitBreakerSpec
  | .transformer _ _ cb => cb
  | .reactor _ _ cb => cb
  | .keeper _ _ cb => cb
  | .channel _ _ _ cb => cb

/-- A reference to a child cell: `{ref, as}`. -/
structure ChildRef : Type where
  ref : String
  asName : String
deriving DecidableEq

/-- One channel topology edge. -/
structure ChannelEdge : Type where
  frm : String
  toName : String
deriving DecidableEq

/-- A declared channel with its topology. -/
structure ChannelDeclaration : Type where
  name : String
  topology : List ChannelEdge
deriving DecidableEq

/-- The `connects` section of a channel cell. -/
structure ChannelConnects : Type where
  frm : String
  toName : String
deriving DecidableEq

/-- `ParsedCell` — the parser's output. -/
structure ParsedCell : Type where
  identity : PIdentity
  contract : Option PContract
  lineage : PLineage
  logic : Option PLogic
  signature : String
  children : Option (List ChildRef)
  channels : Option (List ChannelDeclaration)
  connects : Option ChannelConnects
deriving DecidableEq

/-- `extractIdentity(raw)` — note the placeholder `type: "Transformer"`
when the section is missing or not an object. -/
def extractIdentity (raw : JSValue) : PIdentity :=
  if !(raw.truthy && raw.typeofObject) then
    { name := "", version := "", type := "Transformer" }
  else
    { name := jsStringOr (raw.getField "name"),
      version := jsStringOr (raw.getField "version"),
      type := jsStringOr (raw.getField "type") }

/-- `extractLineage(raw)`. -/
def extractLineage (raw : JSValue) : PLineage :=
  if !(raw.truthy && raw.typeofObject) then
    { source := "", trigger := "", justification := "", parent_context_hash := "" }
  else
    { source := jsStringOr (raw.getField "source"),
      trigger := jsStringOr (raw.getField "trigger"),
      justification := jsStringOr (raw.getField "justification"),
      parent_context_hash := jsStringOr (raw.getField "parent_context_hash") }

/-- `String(x)` applied only when the property is present
(`if (obj.x !== undefined) logic.x = String(obj.x)`). -/
def optString (v : JSValue) : Option String :=
  match v with
  | .undefined => none
  | _ => some (jsToString v)

/-- `extractLogic(raw)`. -/
def extractLogic (raw : JSValue) : Option PLogic :=
  if !(raw.truthy && raw.typeofObject) then none
  else some
    { lang := jsStringOr (raw.getField "lang"),
      process := optString (raw.getField "process"),
      onBody := optString (raw.getField "on"),
      get := optString (raw.getField "get"),
      set := optString (raw.getField "set"),
      del := optString (raw.getField "delete") }

/-- `extractSignature(raw)` — keep only string values. -/
def extractSignature (raw : JSValue) : String :=
  match raw with
  | .str s => s
  | _ => ""

/-- `extractCircuitBreaker(raw)`. -/
def extractCircuitBreaker (raw : JSValue) : CircuitBreakerSpec :=
  if !(raw.truthy && raw.typeofObject) then
    { complexity_budget := .fin 0, safe_mode_action := "" }
  else
    { complexity_budget :=
        match raw.getField "complexity_budget" with
        | .num n => n
        | _ => .fin 0,
      safe_mode_action := jsStringOr (raw.getField "safe_mode_action") }

/-- `extractContract(cellType, raw)` — note the placeholder Transformer
contract (with `safe_mode_action: "halt"`) when the section is missing. -/
def extractContract (cellType : String) (raw : JSValue) : PContract :=
  if !(raw.truthy && raw.typeofObject) then
    .transformer "" "" (some { complexity_budget := .fin 0, safe_mode_action := "halt" })
  else
    let cb := some (extractCircuitBreaker (raw.getField "circuit_breaker"))
    if cellType == "Transformer" then
      .transformer (jsStringOr (raw.getField "input")) (jsStringOr (raw.getField "output")) cb
    else if cellType == "Reactor" then
      .reactor (jsStringOr (raw.getField "listens_to")) (jsStringOr (raw.getField "emits")) cb
    else if cellType == "Keeper" then
      .keeper (jsStringOr (raw.getField "state_schema"))
        (match raw.getField "operations" with
         | .arr xs => xs.map jsToString
         | _ => [])
        cb
    else if cellType == "Channel" then
      .channel (jsStringOr (raw.getField "carries")) (jsStringOr (raw.getField "mode"))
        (match raw.getField "buffer_size" with
         | .num n => n
         | _ => .fin 0)
        cb
    else
      .transformer (jsStringOr (raw.getField "input")) (jsStringOr (raw.getField "output")) cb

/-- `extractChildren(raw)` — only arrays are accepted. -/
def extractChildren (raw : JSValue) : Option (List ChildRef) :=
  match raw with
  | .arr items => some (items.map (fun item =>
      { ref := jsStringOr (item.getField "ref"), asName := jsStringOr (item.getField "as") }))
  | _ => none

/-- `extractChannels(raw)`. -/
def extractChannels (raw : JSValue) : Option (List ChannelDeclaration) :=
  match raw with
  | .arr items => some (items.map (fun item =>
      { name := jsStringOr (item.getField "name"),
        topology :=
          match item.getField "topology" with
          | .arr edges => edges.map (fun e =>
              { frm := jsStringOr (e.getField "from"), toName := jsStringOr (e.getField "to") })
          | _ => [] }))
  | _ => none

/-- `extractConnects(raw)`. -/
def extractConnects (raw : JSValue) : Option ChannelConnects :=
  if !(raw.truthy && raw.typeofObject) then none
  else some { frm := jsStringOr (raw.getField "from"), toName := jsStringOr (raw.getField "to") }

/-- `extractCell(raw)`. -/
def extractCell (raw : JSValue) : ParsedCell :=
  let identity := extractIdentity (raw.getField "identity")
  { identity := identity,
    contract := some (extractContract identity.type (raw.getField "contract")),
    lineage := extractLineage (raw.getField "lineage"),
    logic := extractLogic (raw.getField "logic"),
    signature := extractSignature (raw.getField "signature"),
    children := extractChildren (raw.getField "children"),
    channels := extractChannels (raw.getField "channels"),
    connects := extractConnects (raw.getField "connects") }

/-- `parseFC(content)` after `yaml.load` (the YAML surface syntax is an
external collaborator; the model takes the loaded document value).  The two
`ParseError` throws become `Except.error`. -/
def parseFC (doc : JSValue) : Except String ParsedCell :=
  if !(doc.truthy && doc.typeofObject) then
    .error "File is not a valid YAML document"
  else
    let cell := doc.getField "cell"
    if !(cell.truthy && cell.typeofObject) then
      .error "Missing root \"cell\" key"
    else
      .ok (extractCell cell)

/-! ## `validateCircuitBreaker` (`src/parser/src/validate.ts`) -/

/-- A structural validation violation of the parser's validator. -/
structure ValidationViolation : Type where
  field : String
  message : String
deriving DecidableEq

/-- `SAFE_MODE_ACTIONS` from `types.ts`; lookup with an unknown kind gives
`undefined`. -/
def SAFE_MODE_ACTIONS (cellType : String) : Option String :=
  if cellType == "Transformer" then some "halt"
  else if cellType == "Reactor" then some "halt"
  else if cellType == "Keeper" then some "read_only"
  else if cellType == "Channel" then some "drop_newest"
  else none

/-- `validateCircuitBreaker(cell, violations)` — the violations it pushes. -/
def validateCircuitBreaker (cell : ParsedCell) : List ValidationViolation :=
  match cell.contract.bind PContract.circuit_breaker with
  | none =>
    [{ field := "contract.circuit_breaker",
       message := "circuit_breaker configuration is required" }]
  | some cb =>
    (if !cb.complexity_budget.isIntegerB || cb.complexity_budget.leZeroB then
      [{ field := "contract.circuit_breaker.complexity_budget",
         message := "complexity_budget must be a positive integer, got " ++
           jsNumToString cb.complexity_budget }]
     else []) ++
    (match SAFE_MODE_ACTIONS cell.identity.type with
     | some expectedAction =>
       if !(cb.safe_mode_action == expectedAction) then
         [{ field := "contract.circuit_breaker.safe_mode_action",
            message := "safe_mode_action for " ++ cell.identity.type ++ " must be \"" ++
              expectedAction ++ "\", got \"" ++ cb.safe_mode_action ++ "\"" }]
       else []
     | none => []) ++
    (if cb.safe_mode_action == "" || jsTrim cb.safe_mode_action == "" then
      [{ field := "contract.circuit_breaker.safe_mode_action",
         message := "safe_mode_action is required" }]
     else [])

/-! ## FractalClaw skill loader (`loader.ts`): budget check and stage-4
signature verification -/

/-- A skill-loading violation. -/
structure SkillViolation : Type where
  principle : String
  message : String
deriving DecidableEq

/-- `checkBudget(cell)` — stage-5 budget sanity of the skill loader
(`MAX_SAFE_BUDGET = 1_000_000`). -/
def checkBudget (cell : ParsedCell) : List SkillViolation :=
  match cell.contract.bind PContract.circuit_breaker with
  | none => []
  | some cb =>
    (if cb.complexity_budget == JsNum.posInf || cb.complexity_budget.gtMillionB then
      [{ principle := "Circuit Breaker",
         message := "complexity_budget " ++ jsNumToString cb.complexity_budget ++
           " exceeds safe maximum" }]
     else []) ++
    (if cb.complexity_budget.leZeroB then
      [{ principle := "Circuit Breaker",
         message := "complexity_budget " ++ jsNumToString cb.complexity_budget ++
           " must be positive" }]
     else [])

/-- Stage 4 of `loadSingleSkill`: signature verification, skipped for an
empty or `0x0000…` placeholder signature, with an optional `0x` prefix
stripped before comparison. -/
def stage4SignatureViolations (declaredSig computedSig : String) : List SkillViolation :=
  if !(declaredSig == "") && !(jsStartsWith declaredSig "0x0000") then
    let normalizedDeclared :=
      if jsStartsWith declaredSig "0x" then jsSliceFrom declaredSig 2 else declaredSig
    if !(normalizedDeclared == computedSig) then
      [{ principle := "Principle X",
         message := "Signature mismatch — declared " ++ jsSliceTo normalizedDeclared 16 ++
           "... != computed " ++ jsSliceTo computedSig 16 ++ "..." }]
    else []
  else []

/-! ## String cancellation lemmas (for the sensitivity claim) -/

/-- Right cancellation of string append. -/
theorem stringAppendCancelRight {a b c : String} (h : a ++ c = b ++ c) : a = b := by
  have hd : a.data ++ c.data = b.data ++ c.data := by
    rw [← String.data_append, ← String.data_append, h]
  exact stringDataEq (List.append_cancel_right hd)

/-- Left cancellation of string append. -/
theorem stringAppendCancelLeft {a b c : String} (h : a ++ b = a ++ c) : b = c := by
  have hd : a.data ++ b.data = a.data ++ c.data := by
    rw [← String.data_append, ← String.data_append, h]
  exact stringDataEq (List.append_cancel_left hd)

/-! ## Claim theorems -/

/-- A `Reactor` built with budget `N` is, after `k ≤ N` successful `on()`
calls, in the state with `N - k` budget and `k` handler invocations. -/
theorem reactorIterateState (name : String) (N : Int) (k : Nat) (hk : (k : Int) ≤ N) :
    Reactor.onIterate (Reactor.create name (some N)) k =
      { name := name, maxBudget := N, complexityBudget := N - k, handlerCalls := k } := by
  induction k with
  | zero => simp [Reactor.onIterate, Reactor.create]
  | succ k ih =>
    have hk' : (k : Int) ≤ N := by push_cast at hk ⊢; omega
    have hpos : ¬(N - (k : Int) ≤ 0) := by push_cast at hk; omega
    rw [Reactor.onIterate, ih hk']
    simp only [Reactor.onCall, hpos, if_false]
    congr 1
    push_cast
    ring

/-- C4.  Budget state machine: a Reactor constructed with
`complexityBudget = N > 0` serves exactly `N` `on()` calls, each one
decrementing `budgetRemaining` by one; the `(N+1)`-th attempt throws the
Safe-Mode error while leaving the handler uninvoked (the handler-call count
stays at `N`); and `resetBudget()` restores `budgetRemaining` to `N`. -/
theorem budgetStateMachine (name : String) (N : Nat) (hN : 0 < N) :
    (∀ k : Nat, k < N →
      (Reactor.onCall (Reactor.onIterate (Reactor.create name (some (N : Int))) k)).1 = .ok () ∧
      Reactor.budgetRemaining (Reactor.onIterate (Reactor.create name (some (N : Int))) (k + 1)) =
        (N : Int) - (k + 1)) ∧
    (Reactor.onCall (Reactor.onIterate (Reactor.create name (some (N : Int))) N)).1 =
      .error (safeModeMessage name) ∧
    (Reactor.onIterate (Reactor.create name (some (N : Int))) (N + 1)).handlerCalls = N ∧
    Reactor.budgetRemaining
      (Reactor.resetBudget (Reactor.onIterate (Reactor.create name (some (N : Int))) N)) =
      (N : Int) := by
  have hstateN := reactorIterateState name (N : Int) N (by omega)
  have hzero : (N : Int) - (N : Nat) ≤ 0 := by omega
  refine ⟨?_, ?_, ?_, ?_⟩
  · intro k hk
    have hst := reactorIterateState name (N : Int) k (by omega)
    have hlt : ¬((N : Int) - (k : Int) ≤ 0) := by omega
    constructor
    · rw [hst]; simp [Reactor.onCall, hlt]
    · have hst' := reactorIterateState name (N : Int) (k + 1) (by push_cast; omega)
      rw [hst', Reactor.budgetRemaining]; push_cast; ring
  · rw [hstateN]; simp [Reactor.onCall, hzero]
  · rw [Reactor.onIterate, hstateN]
    simp [Reactor.onCall, hzero]
  · rw [hstateN]; simp [Reactor.resetBudget, Reactor.budgetRemaining]

/-- Witness for C4 at `N = 3`. -/
theorem budgetStateMachine_witness :
    (Reactor.onCall (Reactor.onIterate (Reactor.create "r" (some ((3 : Nat) : Int))) 3)).1 =
      .error (safeModeMessage "r") ∧
    (Reactor.onIterate (Reactor.create "r" (some ((3 : Nat) : Int))) 4).handlerCalls = 3 ∧
    Reactor.budgetRemaining
      (Reactor.resetBudget (Reactor.onIterate (Reactor.create "r" (some ((3 : Nat) : Int))) 3)) =
      ((3 : Nat) : Int) := by
  have h := budgetStateMachine "r" 3 (by decide)
  exact ⟨h.2.1, h.2.2.1, h.2.2.2⟩

/-- C9.  Leaf/composed signature invariant: the leaf computation never
attaches a child-fingerprint list, the composed computation always attaches
the sorted child-hash list, and the cell-level computation
(`Reactor.computeSignature`) therefore yields `none` exactly for a
childless cell and a list of length `children.length` otherwise. -/
theorem leafComposedInvariant (cell : SCell) (cs : List CellSignature) (now : String) :
    (computeLeafSignature cell now).children = none ∧
    ((computeComposedSignature cell cs now).children =
        some (jsSortStr (cs.map CellSignature.hash)) ∧
      (jsSortStr (cs.map CellSignature.hash)).length = cs.length) ∧
    (cs = [] → (computeCellSignature cell cs now).children = none) ∧
    (cs ≠ [] → ∃ l, (computeCellSignature cell cs now).children = some l ∧
      l.length = cs.length) := by
  have hlen : (jsSortStr (cs.map CellSignature.hash)).length = cs.length := by
    unfold jsSortStr
    rw [(List.perm_insertionSort strLeProp (cs.map CellSignature.hash)).length_eq,
      List.length_map]
  refine ⟨rfl, ⟨rfl, hlen⟩, ?_, ?_⟩
  · intro h; subst h; rfl
  · intro h
    refine ⟨jsSortStr (cs.map CellSignature.hash), ?_, hlen⟩
    rw [computeCellSignature, if_neg (by simpa [List.isEmpty_iff] using h)]
    rfl

/-- Witness for C9 on a concrete leaf and a concrete one-child cell. -/
theorem leafComposedInvariant_witness :
    (computeCellSignature
      ⟨⟨"n", "transformer", "1.0.0"⟩, ⟨Json.obj [], "i"⟩, ⟨Json.obj [], "o"⟩,
        ⟨"s", "t", "j", "x"⟩, ⟨"", none, ""⟩⟩ [] "T").children = none ∧
    (∃ l, (computeCellSignature
      ⟨⟨"n", "transformer", "1.0.0"⟩, ⟨Json.obj [], "i"⟩, ⟨Json.obj [], "o"⟩,
        ⟨"s", "t", "j", "x"⟩, ⟨"", none, ""⟩⟩ [⟨"aa", none, "T"⟩] "T").children = some l ∧
      l.length = 1) := by
  refine ⟨(leafComposedInvariant _ [] "T").2.2.1 rfl, ?_⟩
  exact (leafComposedInvariant _ [⟨"aa", none, "T"⟩] "T").2.2.2 (by simp)

/-- C2.  Order-invariance: permuting the child-signature list changes
neither the composed hash nor the attached (sorted) child-fingerprint list,
and hence reordering a cell's children leaves its fingerprint unchanged. -/
theorem orderInvariance (cell : SCell) (cs cs' : List CellSignature) (now now' : String)
    (hperm : cs'.Perm cs) :
    (computeComposedSignature cell cs' now').hash =
      (computeComposedSignature cell cs now).hash ∧
    (computeComposedSignature cell cs' now').children =
      (computeComposedSignature cell cs now).children ∧
    (computeCellSignature cell cs' now').hash = (computeCellSignature cell cs now).hash := by
  have hsort : jsSortStr (cs'.map CellSignature.hash) = jsSortStr (cs.map CellSignature.hash) :=
    jsSortStr_perm_eq (hperm.map CellSignature.hash)
  refine ⟨?_, ?_, ?_⟩
  · simp [computeComposedSignature, hsort]
  · simp [computeComposedSignature, hsort]
  · by_cases hcs : cs = []
    · subst hcs
      rw [hperm.eq_nil]
      rfl
    · have hcs' : cs' ≠ [] := fun h => hcs (by simpa [h] using hperm)
      rw [computeCellSignature, computeCellSignature,
        if_neg (by simpa [List.isEmpty_iff] using hcs'),
        if_neg (by simpa [List.isEmpty_iff] using hcs)]
      simp [computeComposedSignature, hsort]

/-- Witness for C2 on a concrete two-element swap. -/
theorem orderInvariance_witness :
    (computeComposedSignature
      ⟨⟨"n", "transformer", "1.0.0"⟩, ⟨Json.obj [], "i"⟩, ⟨Json.obj [], "o"⟩,
        ⟨"s", "t", "j", "x"⟩, ⟨"", none, ""⟩⟩
      [⟨"bb", none, "T1"⟩, ⟨"aa", none, "T2"⟩] "now1").hash =
    (computeComposedSignature
      ⟨⟨"n", "transformer", "1.0.0"⟩, ⟨Json.obj [], "i"⟩, ⟨Json.obj [], "o"⟩,
        ⟨"s", "t", "j", "x"⟩, ⟨"", none, ""⟩⟩
      [⟨"aa", none, "T2"⟩, ⟨"bb", none, "T1"⟩] "now2").hash :=
  (orderInvariance _ _ _ "now2" "now1" (by decide)).1

/-- The three provenance (lineage) fields covered by the sensitivity
property. -/
inductive LineageField : Type where
  | source
  | trigger
  | justification
deriving DecidableEq

/-- Read one lineage field of a cell. -/
def lineageFieldGet (c : SCell) : LineageField → String
  | .source => c.lineage.source
  | .trigger => c.lineage.trigger
  | .justification => c.lineage.justification

/-- Replace one lineage field of a cell, keeping everything else fixed. -/
def setLineageField (c : SCell) (f : LineageField) (v : String) : SCell :=
  match f with
  | .source => { c with lineage := { c.lineage with source := v } }
  | .trigger => { c with lineage := { c.lineage with trigger := v } }
  | .justification => { c with lineage := { c.lineage with justification := v } }

/-- Changing a single lineage field to a different string changes the
content string that gets hashed: the concatenation in `cellContent` is
injective in each lineage field (by append cancellation) because all other
segments stay fixed. -/
theorem cellContent_setLineage_ne (c : SCell) (f : LineageField) (v : String)
    (hne : v ≠ lineageFieldGet c f) :
    cellContent (setLineageField c f v) ≠ cellContent c := by
  obtain ⟨id, inp, outp, lin, sig⟩ := c
  obtain ⟨ls, lt, lj, lsig⟩ := lin
  intro h
  cases f with
  | source =>
    simp only [cellContent, setLineageField] at h
    exact hne (stringAppendCancelLeft
      (stringAppendCancelRight (stringAppendCancelRight h)))
  | trigger =>
    simp only [cellContent, setLineageField] at h
    exact hne (stringAppendCancelLeft (stringAppendCancelRight h))
  | justification =>
    simp only [cellContent, setLineageField] at h
    exact hne (stringAppendCancelLeft h)

/-- C3.  Sensitivity: changing exactly one provenance field (source,
trigger or justification) to a different string — all other content fields
and all child fingerprints fixed — changes the hashed content string, and
therefore changes the leaf and composed fingerprints whenever SHA-256 does
not collide on the two content strings in question (`hcoll1`/`hcoll2` are
that no-collision assumption, checkable by evaluation at any concrete
input; collision-freeness over all inputs is a cryptographic property no
theorem can supply). -/
theorem provenanceSensitivity (c : SCell) (f : LineageField) (v : String) (now : String)
    (cs : List CellSignature)
    (hne : v ≠ lineageFieldGet c f)
    (hcoll1 : sha256 (cellContent (setLineageField c f v)) = sha256 (cellContent c) →
      cellContent (setLineageField c f v) = cellContent c)
    (hcoll2 : sha256 (cellContent (setLineageField c f v) ++
        String.join (jsSortStr (cs.map CellSignature.hash))) =
      sha256 (cellContent c ++ String.join (jsSortStr (cs.map CellSignature.hash))) →
      cellContent (setLineageField c f v) ++
        String.join (jsSortStr (cs.map CellSignature.hash)) =
      cellContent c ++ String.join (jsSortStr (cs.map CellSignature.hash))) :
    (computeLeafSignature (setLineageField c f v) now).hash ≠
      (computeLeafSignature c now).hash ∧
    (computeComposedSignature (setLineageField c f v) cs now).hash ≠
      (computeComposedSignature c cs now).hash := by
  have hcc : cellContent (setLineageField c f v) ≠ cellContent c :=
    cellContent_setLineage_ne c f v hne
  constructor
  · intro h
    exact hcc (hcoll1 h)
  · intro h
    simp only [computeComposedSignature] at h
    exact hcc (stringAppendCancelRight (hcoll2 h))

set_option maxRecDepth 40000 in
/-- Witness for C3: a concrete source-field change, with the no-collision
hypotheses discharged by evaluating the embedded SHA-256. -/
theorem provenanceSensitivity_witness :
    (computeLeafSignature
      (setLineageField
        ⟨⟨"n", "transformer", "1.0.0"⟩, ⟨Json.obj [], "i"⟩, ⟨Json.obj [], "o"⟩,
          ⟨"s", "t", "j", "x"⟩, ⟨"", none, ""⟩⟩ .source "s2") "T").hash ≠
    (computeLeafSignature
      ⟨⟨"n", "transformer", "1.0.0"⟩, ⟨Json.obj [], "i"⟩, ⟨Json.obj [], "o"⟩,
        ⟨"s", "t", "j", "x"⟩, ⟨"", none, ""⟩⟩ "T").hash :=
  (provenanceSensitivity _ .source "s2" "T" [] (by decide) (by decide) (by decide)).1

/-- C10.  Placeholder bypass in `loadSingleSkill` stage 4: verification is
skipped entirely (no mismatch violation can arise) when the declared
signature is empty or starts with `"0x0000"`; otherwise an optional `"0x"`
prefix is stripped and a mismatch violation is produced exactly when the
stripped signature differs byte-for-byte from the computed one. -/
theorem placeholderBypass (declaredSig computedSig : String) :
    (declaredSig = "" ∨ jsStartsWith declaredSig "0x0000" = true →
      stage4SignatureViolations declaredSig computedSig = []) ∧
    (declaredSig ≠ "" → jsStartsWith declaredSig "0x0000" = false →
      stage4SignatureViolations declaredSig computedSig =
        (if (if jsStartsWith declaredSig "0x" then jsSliceFrom declaredSig 2
             else declaredSig) = computedSig
         then []
         else
           [{ principle := "Principle X",
              message := "Signature mismatch — declared " ++
                jsSliceTo (if jsStartsWith declaredSig "0x" then jsSliceFrom declaredSig 2
                  else declaredSig) 16 ++
                "... != computed " ++ jsSliceTo computedSig 16 ++ "..." }])) := by
  constructor
  · rintro (h | h)
    · subst h; rfl
    · rw [stage4SignatureViolations, if_neg]
      simp [h]
  · intro h1 h2
    rw [stage4SignatureViolations,
      if_pos (by simp [h2, h1])]
    by_cases heq :
        (if jsStartsWith declaredSig "0x" then jsSliceFrom declaredSig 2 else declaredSig) =
          computedSig
    · simp [heq]
    · simp [heq]

/-- Witness for C10: a `0x0000…` placeholder is accepted unverified; a
matching `0x`-prefixed signature verifies cleanly. -/
theorem placeholderBypass_witness :
    stage4SignatureViolations "0x0000feed" "abc" = [] ∧
    stage4SignatureViolations "0xabc" "abc" = [] := by
  constructor
  · exact (placeholderBypass "0x0000feed" "abc").1 (Or.inr (by decide))
  · have h := (placeholderBypass "0xabc" "abc").2 (by decide) (by decide)
    rw [h]
    decide

/-- The child-hash comparison loop finds no mismatch on identical lists. -/
theorem firstMismatchIdxAux_self : ∀ (i : Nat) (l : List String),
    firstMismatchIdxAux i l l = none
  | _, [] => rfl
  | i, a :: l => by
    rw [firstMismatchIdxAux]
    simp only [beq_self_eq_true, Bool.not_true, Bool.false_eq_true, if_false]
    exact firstMismatchIdxAux_self (i + 1) l

/-- C1.  Round-trip: a cell whose stored signature was just computed from
its current content fields (leaf computation for a childless cell,
composed computation over the children's stored signatures otherwise, with
a non-empty timestamp `ts`) passes `verifySignature` with those same child
signatures, `signatureCheck`'s recomputation reproduces the stored hash,
and the check raises no violation at all — in particular no mismatch — for
that cell. -/
theorem roundTrip (d : DCell) (ts now : String) (hts : ts ≠ "")
    (hsig : d.signature = computeCellSignature (toSCell d) (d.children.map DCell.signature) ts) :
    verifySignature (toSCell d) (some (d.children.map DCell.signature)) now = true ∧
    recomputeHash d = d.signature.hash ∧
    sigCheckOwn d = [] := by
  obtain ⟨fp, id, inp, outp, lin, sig, ctx, ch, hh, htm, hr⟩ := d
  have hcontent :
      ∀ s : CellSignature, cellContent ⟨id, inp, outp, lin, s⟩ =
        id.name ++ id.cellType ++ id.version ++ Json.stringify inp.schema ++
        Json.stringify outp.schema ++ lin.source ++ lin.trigger ++ lin.justification :=
    fun _ => rfl
  cases ch with
  | nil =>
    simp only [DCell.children, DCell.signature, toSCell, DCell.identity, DCell.input,
      DCell.output, DCell.lineage, List.map_nil, computeCellSignature, List.isEmpty_nil,
      if_true, computeLeafSignature, hcontent] at hsig
    subst hsig
    refine ⟨?_, ?_, ?_⟩
    · simp [verifySignature, computeLeafSignature, toSCell, DCell.identity, DCell.input,
        DCell.output, DCell.lineage, DCell.signature, DCell.children, cellContent]
    · simp [recomputeHash, DCell.children, DCell.signature, DCell.identity, DCell.input,
        DCell.output, DCell.lineage, List.isEmpty_nil]
    · simp [sigCheckOwn, sigBadFormat, DCell.signature, DCell.children, DCell.identity,
        sigCheckBody, recomputeHash, DCell.input, DCell.output, DCell.lineage,
        isHex64_sha256, sha256_ne_empty, hts, List.isEmpty_nil]
  | cons c0 ch' =>
    simp only [DCell.children, DCell.signature, toSCell, DCell.identity, DCell.input,
      DCell.output, DCell.lineage, List.map_cons, computeCellSignature, List.isEmpty_cons,
      Bool.false_eq_true, if_false, computeComposedSignature, hcontent] at hsig
    subst hsig
    refine ⟨?_, ?_, ?_⟩
    · simp [verifySignature, computeComposedSignature, toSCell, DCell.identity, DCell.input,
        DCell.output, DCell.lineage, DCell.signature, DCell.children, cellContent,
        List.map_cons, List.map_map, Function.comp_def]
    · simp [recomputeHash, DCell.children, DCell.identity, DCell.input, DCell.output,
        DCell.lineage, DCell.signature, List.isEmpty_cons, List.map_cons, List.map_map,
        Function.comp_def]
    · simp [sigCheckOwn, sigBadFormat, sigCheckBody, recomputeHash, DCell.signature,
        DCell.children, DCell.identity, DCell.filePath, DCell.input, DCell.output,
        DCell.lineage, isHex64_sha256, sha256_ne_empty, hts, List.isEmpty_cons,
        List.map_cons, List.map_map, Function.comp_def, firstMismatchIdx,
        firstMismatchIdxAux_self]

/-- Witness cell for C1: the constructor's placeholder-then-overwrite
signature initialisation on a concrete leaf reactor. -/
def wLeafSig : CellSignature :=
  computeLeafSignature
    ⟨⟨"w", "reactor", "1.0.0"⟩, ⟨Json.obj [], "i"⟩, ⟨Json.obj [], "o"⟩,
      ⟨"s", "t", "j", "x"⟩, ⟨"", none, ""⟩⟩ "T"

/-- The concrete leaf cell carrying its freshly computed signature. -/
def wLeafCell : DCell :=
  .mk "w.reactor.ts" ⟨"w", "reactor", "1.0.0"⟩ ⟨Json.obj [], "i"⟩ ⟨Json.obj [], "o"⟩
    ⟨"s", "t", "j", "x"⟩ wLeafSig
    ⟨⟨"w", "reactor", "1.0.0"⟩, none, none, none, ""⟩ [] true true none

/-- Witness for C1 on the concrete freshly signed leaf cell. -/
theorem roundTrip_witness :
    verifySignature (toSCell wLeafCell) (some (wLeafCell.children.map DCell.signature)) "now"
      = true ∧
    sigCheckOwn wLeafCell = [] := by
  have h := roundTrip wLeafCell "T" "now" (by decide) rfl
  exact ⟨h.1, h.2.2⟩

/-- C5.  Composition topology: a cell with at least two non-Channel
children and no Channel child makes `compositionCheck` fail with a
violation (for that cell) whose message contains
`"no Channel to mediate"`; with at least one Channel child the loop body
for that cell produces only the context-map violations (no topology
violation); and a cell with at most one non-Channel child is likewise
exempt from the topology rule. -/
theorem compositionTopology (c : DCell) :
    (2 ≤ (nonChannelChildren c).length → (channelChildren c).length = 0 →
      (compositionCheck [c]).passed = false ∧
      ∃ v ∈ (compositionCheck [c]).violations, v.cell = c.identity.name ∧
        ∃ pre post, v.message = pre ++ ("no Channel to mediate" ++ post)) ∧
    (1 ≤ (channelChildren c).length → compositionOwn c = compositionCtxViols c) ∧
    ((nonChannelChildren c).length ≤ 1 → compositionOwn c = compositionCtxViols c) := by
  have hmsg : ∀ n : Nat, topoMessage n =
      ("Cell has " ++ toString n ++ " non-channel children but ") ++
        ("no Channel to mediate" ++
          (" communication. " ++ "All sibling communication must pass through Channels.")) := by
    intro n
    rw [topoMessage]
    have hB : (" non-channel children but no Channel to mediate communication. " : String) =
        " non-channel children but " ++ ("no Channel to mediate" ++ " communication. ") := rfl
    rw [hB]
    simp [String.append_assoc]
  refine ⟨?_, ?_, ?_⟩
  · intro h2 h0
    obtain ⟨fp, id, inp, outp, lin, sig, ctx, ch, hh, htm, hr⟩ := c
    have hchne : ch ≠ [] := by
      intro h
      subst h
      simp [nonChannelChildren, DCell.children] at h2
    have hown : compositionOwn (.mk fp id inp outp lin sig ctx ch hh htm hr) =
        ⟨id.name, fp, topoMessage
            (nonChannelChildren (.mk fp id inp outp lin sig ctx ch hh htm hr)).length, "III"⟩ ::
          compositionCtxViols (.mk fp id inp outp lin sig ctx ch hh htm hr) := by
      rw [compositionOwn, if_pos ⟨h2, h0⟩]
      rfl
    have hcells : compositionCells [DCell.mk fp id inp outp lin sig ctx ch hh htm hr] =
        compositionOwn (.mk fp id inp outp lin sig ctx ch hh htm hr) ++
          compositionRecurse ch := by
      rw [compositionCells]
      simp only [List.flatMap_cons, List.flatMap_nil, List.append_nil]
      rw [compositionCell, if_neg (by simpa [List.isEmpty_iff] using hchne)]
    constructor
    · simp only [compositionCheck, hcells, hown, List.cons_append, List.isEmpty_cons]
    · refine ⟨⟨id.name, fp, topoMessage
          (nonChannelChildren (.mk fp id inp outp lin sig ctx ch hh htm hr)).length, "III"⟩,
        ?_, rfl, ?_⟩
      · simp only [compositionCheck, hcells, hown]
        exact List.mem_append_left _ (List.mem_cons_self _ _)
      · exact ⟨_, _, hmsg _⟩
  · intro h1
    rw [compositionOwn, if_neg (by omega)]
    exact List.nil_append _
  · intro h1
    rw [compositionOwn, if_neg (by omega)]
    exact List.nil_append _

/-- A concrete leaf child of the given kind, for the composition witnesses. -/
def wChild (nm kind : String) : DCell :=
  .mk (nm ++ ".ts") ⟨nm, kind, "1.0.0"⟩ ⟨Json.obj [], "i"⟩ ⟨Json.obj [], "o"⟩
    ⟨"s", "t", "j", "x"⟩ ⟨"", none, ""⟩
    ⟨⟨nm, kind, "1.0.0"⟩, none, none, none, ""⟩ [] true true none

/-- A concrete parent over the given children, publishing them all in its
context map. -/
def wParent (ch : List DCell) : DCell :=
  .mk "app.ts" ⟨"app", "reactor", "1.0.0"⟩ ⟨Json.obj [], "i"⟩ ⟨Json.obj [], "o"⟩
    ⟨"s", "t", "j", "x"⟩ ⟨"", none, ""⟩
    ⟨⟨"app", "reactor", "1.0.0"⟩, none,
      some (ch.map (fun k => k.identity.name)),
      some ((ch.filter (fun k => k.identity.cellType == "channel")).map
        (fun k => k.identity.name)), ""⟩
    ch true true none

/-- Witness for C5: two Transformer siblings without a Channel fail the
check; adding a Channel child (or dropping to one sibling) removes the
topology violation. -/
theorem compositionTopology_witness :
    (compositionCheck [wParent [wChild "a" "transformer", wChild "b" "transformer"]]).passed
      = false ∧
    compositionOwn
        (wParent [wChild "a" "transformer", wChild "b" "transformer", wChild "m" "channel"]) =
      compositionCtxViols
        (wParent [wChild "a" "transformer", wChild "b" "transformer", wChild "m" "channel"]) ∧
    compositionOwn (wParent [wChild "a" "transformer"]) =
      compositionCtxViols (wParent [wChild "a" "transformer"]) := by
  refine ⟨?_, ?_, ?_⟩
  · exact ((compositionTopology _).1 (by decide) (by decide)).1
  · exact (compositionTopology _).2.1 (by decide)
  · exact (compositionTopology _).2.2 (by decide)

/-- From the spec's words (§4.4 budget-sanity): a reported `budgetRemaining`
must be a *finite*, non-negative number. -/
def specFiniteNonNegativeNumber : JSValue → Bool
  | .num (.fin q) => decide (0 ≤ q)
  | _ => false

/-- A transformer that reports `budgetRemaining = Infinity` through its
health report. -/
def cInfCell : DCell :=
  .mk "inf.ts" ⟨"inf-budget", "transformer", "1.0.0"⟩ ⟨Json.obj [], "i"⟩ ⟨Json.obj [], "o"⟩
    ⟨"s", "t", "j", "x"⟩ ⟨"", none, ""⟩
    ⟨⟨"inf-budget", "transformer", "1.0.0"⟩, none, none, none, ""⟩ [] true true
    (some ⟨"healthy", some (.num .posInf)⟩)

/-- Counterexample to C7 as stated: `Infinity` is not a finite non-negative
number, yet `circuitBreakerCheck` accepts the cell with no violation — the
code checks only "number type and not negative", never finiteness. -/
theorem circuitBreakerFiniteness_cx :
    cInfCell.identity.cellType = "transformer" ∧
    cInfCell.hasHealthMethod = true ∧
    cInfCell.healthReport = some ⟨"healthy", some (.num .posInf)⟩ ∧
    specFiniteNonNegativeNumber (.num .posInf) = false ∧
    (circuitBreakerCheck [cInfCell]).passed = true ∧
    (circuitBreakerCheck [cInfCell]).violations = [] :=
  ⟨rfl, rfl, rfl, rfl, rfl, rfl⟩

/-- C7 (amended).  `circuitBreakerCheck` raises a violation for a cell iff
it is a transformer or reactor and (it lacks a `health()` method, or its
health report is present but omits `budgetRemaining`, or the reported
`budgetRemaining` is present and is either not of number type or negative
— finiteness is not checked, so `Infinity` and `NaN` pass); Keeper and
Channel cells never receive circuit-breaker violations. -/
theorem circuitBreakerCharacterization (c : DCell) :
    (cbOwn c ≠ [] ↔
      ((c.identity.cellType = "transformer" ∨ c.identity.cellType = "reactor") ∧
        (c.hasHealthMethod = false ∨
         (∃ hr, c.healthReport = some hr ∧ hr.budgetRemaining = none) ∨
         (∃ hr v, c.healthReport = some hr ∧ hr.budgetRemaining = some v ∧
           cbBadValue v = true)))) ∧
    (c.identity.cellType ≠ "transformer" → c.identity.cellType ≠ "reactor" →
      cbOwn c = []) := by
  obtain ⟨fp, id, inp, outp, lin, sig, ctx, ch, hh, htm, hr⟩ := c
  simp only [cbOwn, DCell.identity, DCell.hasHealthMethod, DCell.healthReport]
  by_cases hneeds : id.cellType = "transformer" ∨ id.cellType = "reactor"
  · have hb : (id.cellType == "transformer" || id.cellType == "reactor") = true := by
      rcases hneeds with h | h <;> simp [h]
    rw [if_pos hb]
    constructor
    · cases hh with
      | false =>
        simp only [Bool.not_false, if_true]
        constructor
        · intro _
          exact ⟨hneeds, Or.inl (by trivial)⟩
        · intro _
          simp
      | true =>
        simp only [Bool.not_true, Bool.false_eq_true, if_false]
        cases hr with
        | none => simp [hneeds]
        | some rep =>
          obtain ⟨st, bud⟩ := rep
          cases bud with
          | none => simp [hneeds]
          | some v =>
            by_cases hbad : cbBadValue v = true
            · simp [hbad, hneeds]
            · have hb2 : cbBadValue v = false := by
                revert hbad
                cases cbBadValue v <;> simp
              simp [hb2, hneeds]
    · intro h1 h2
      rcases hneeds with h | h
      · exact absurd h h1
      · exact absurd h h2
  · have hb : (id.cellType == "transformer" || id.cellType == "reactor") = false := by
      push_neg at hneeds
      simp [hneeds.1, hneeds.2]
    rw [if_neg (by simp [hb])]
    constructor
    · constructor
      · intro h
        exact absurd rfl h
      · rintro ⟨hk, _⟩
        exact absurd hk hneeds
    · intro _ _
      rfl

/-- Witness for C7 (amended): a transformer without a `health()` method is
flagged; a keeper with no reported budget is not. -/
theorem circuitBreakerCharacterization_witness :
    cbOwn (.mk "t.ts" ⟨"t", "transformer", "1.0.0"⟩ ⟨Json.obj [], "i"⟩ ⟨Json.obj [], "o"⟩
      ⟨"s", "t", "j", "x"⟩ ⟨"", none, ""⟩
      ⟨⟨"t", "transformer", "1.0.0"⟩, none, none, none, ""⟩ [] false true none) ≠ [] ∧
    cbOwn (.mk "k.ts" ⟨"k", "keeper", "1.0.0"⟩ ⟨Json.obj [], "i"⟩ ⟨Json.obj [], "o"⟩
      ⟨"s", "t", "j", "x"⟩ ⟨"", none, ""⟩
      ⟨⟨"k", "keeper", "1.0.0"⟩, none, none, none, ""⟩ [] true true
      (some ⟨"healthy", none⟩)) = [] := by
  constructor
  · exact (circuitBreakerCharacterization _).1.mpr ⟨Or.inl rfl, Or.inl rfl⟩
  · exact (circuitBreakerCharacterization _).2 (by decide) (by decide)

/-- From the spec's words (§3): `max_units` must be a positive integer not
exceeding 1,000,000. -/
def specValidBudgetB : JsNum → Bool
  | .fin q => q.den == 1 && decide (0 < q) && decide (q ≤ 1000000)
  | _ => false

/-- C6.  Budget-spec completeness: over the validation stages the loader
runs on a parsed cell (`validateCircuitBreaker` in stage 2, `checkBudget`
in stage 5), a violation is reported whenever the `circuit_breaker` spec is
missing, whenever `complexity_budget` is not a positive integer at most
1,000,000 (the upper bound is enforced by `checkBudget`, the
positive-integer part by `validateCircuitBreaker`), and whenever
`safe_mode_action` differs from the kind-mandated action
(Transformer/Reactor → `halt`, Keeper → `read_only`, Channel →
`drop_newest`). -/
theorem budgetSpecCompleteness (cell : ParsedCell) :
    (cell.contract.bind PContract.circuit_breaker = none →
      validateCircuitBreaker cell ≠ []) ∧
    (∀ cb, cell.contract.bind PContract.circuit_breaker = some cb →
      specValidBudgetB cb.complexity_budget = false →
      validateCircuitBreaker cell ≠ [] ∨ checkBudget cell ≠ []) ∧
    (∀ cb expected, cell.contract.bind PContract.circuit_breaker = some cb →
      SAFE_MODE_ACTIONS cell.identity.type = some expected →
      cb.safe_mode_action ≠ expected →
      validateCircuitBreaker cell ≠ []) := by
  refine ⟨?_, ?_, ?_⟩
  · intro hnone
    simp [validateCircuitBreaker, hnone]
  · intro cb hsome hbad
    obtain ⟨bud, act⟩ := cb
    rcases bud with q | _ | _ | _
    · by_cases hden : q.den = 1
      · by_cases hpos : (0 : ℚ) < q
        · have hgt : ¬ q ≤ 1000000 := by
            intro hle
            have htrue : specValidBudgetB (.fin q) = true := by
              simp [specValidBudgetB, hden, hpos, hle]
            rw [htrue] at hbad
            cases hbad
          right
          simp [checkBudget, hsome, JsNum.gtMillionB, not_le.mp hgt]
        · left
          simp [validateCircuitBreaker, hsome, JsNum.isIntegerB, JsNum.leZeroB,
            hden, not_lt.mp hpos]
      · left
        simp [validateCircuitBreaker, hsome, JsNum.isIntegerB, hden]
    · left
      simp [validateCircuitBreaker, hsome, JsNum.isIntegerB]
    · left
      simp [validateCircuitBreaker, hsome, JsNum.isIntegerB]
    · left
      simp [validateCircuitBreaker, hsome, JsNum.isIntegerB]
  · intro cb expected hsome hact hne
    simp [validateCircuitBreaker, hsome, hact, hne]

/-- A parsed transformer whose contract lacks a `circuit_breaker` spec. -/
def wCellNoCb : ParsedCell :=
  ⟨⟨"n", "1.0.0", "Transformer"⟩, some (.transformer "A" "B" none),
    ⟨"s", "t", "j", "p"⟩, none, "", none, none, none⟩

/-- A parsed transformer whose budget exceeds the safe maximum. -/
def wCellBig : ParsedCell :=
  ⟨⟨"n", "1.0.0", "Transformer"⟩,
    some (.transformer "A" "B" (some ⟨.fin 2000000, "halt"⟩)),
    ⟨"s", "t", "j", "p"⟩, none, "", none, none, none⟩

/-- A parsed keeper with the wrong `safe_mode_action`. -/
def wCellWrongAct : ParsedCell :=
  ⟨⟨"k", "1.0.0", "Keeper"⟩,
    some (.keeper "S" ["get", "set"] (some ⟨.fin 10, "halt"⟩)),
    ⟨"s", "t", "j", "p"⟩, none, "", none, none, none⟩

/-- Witness for C6 on the three violating configurations. -/
theorem budgetSpecCompleteness_witness :
    validateCircuitBreaker wCellNoCb ≠ [] ∧
    (validateCircuitBreaker wCellBig ≠ [] ∨ checkBudget wCellBig ≠ []) ∧
    validateCircuitBreaker wCellWrongAct ≠ [] := by
  refine ⟨?_, ?_, ?_⟩
  · exact (budgetSpecCompleteness wCellNoCb).1 rfl
  · exact (budgetSpecCompleteness wCellBig).2.1 ⟨.fin 2000000, "halt"⟩ rfl (by decide)
  · exact (budgetSpecCompleteness wCellWrongAct).2.2 ⟨.fin 10, "halt"⟩ "read_only" rfl
      (by decide) (by decide)

/-- A Bool that is not `false` is `true`. -/
theorem boolNotFalse {b : Bool} (h : ¬ b = false) : b = true := by
  cases b
  · exact absurd rfl h
  · rfl

/-- C8 (amended).  `parseFC` fails exactly when the loaded document is not
a truthy object or its `cell` entry is missing / not a truthy object; an
accepted document parses to `extractCell` of that entry.  Absent sections
come out empty or absent — lineage fields become empty strings, a
non-string signature becomes `""`, children/channels/logic/connects become
absent — except for two deliberate placeholders the validator is meant to
flag later: a missing identity section yields kind `"Transformer"`, and a
missing contract section yields a placeholder Transformer contract whose
breaker carries `safe_mode_action = "halt"`. -/
theorem parseFCBehavior (doc raw : JSValue) :
    ((∃ e, parseFC doc = .error e) ↔
      (doc.truthy && doc.typeofObject) = false ∨
      ((doc.getField "cell").truthy && (doc.getField "cell").typeofObject) = false) ∧
    (∀ p, parseFC doc = .ok p → p = extractCell (doc.getField "cell")) ∧
    (((raw.getField "identity").truthy && (raw.getField "identity").typeofObject) = false →
      (extractCell raw).identity = ⟨"", "", "Transformer"⟩) ∧
    (((raw.getField "contract").truthy && (raw.getField "contract").typeofObject) = false →
      (extractCell raw).contract = some (.transformer "" "" (some ⟨.fin 0, "halt"⟩))) ∧
    (((raw.getField "lineage").truthy && (raw.getField "lineage").typeofObject) = false →
      (extractCell raw).lineage = ⟨"", "", "", ""⟩) ∧
    (((raw.getField "logic").truthy && (raw.getField "logic").typeofObject) = false →
      (extractCell raw).logic = none) ∧
    ((∀ s, raw.getField "signature" ≠ .str s) → (extractCell raw).signature = "") ∧
    ((∀ xs, raw.getField "children" ≠ .arr xs) → (extractCell raw).children = none) ∧
    ((∀ xs, raw.getField "channels" ≠ .arr xs) → (extractCell raw).channels = none) ∧
    (((raw.getField "connects").truthy && (raw.getField "connects").typeofObject) = false →
      (extractCell raw).connects = none) := by
  refine ⟨?_, ?_, ?_, ?_, ?_, ?_, ?_, ?_, ?_, ?_⟩
  · constructor
    · intro ⟨e, he⟩
      by_cases h1 : (doc.truthy && doc.typeofObject) = false
      · exact Or.inl h1
      · right
        rw [parseFC, if_neg (by simp [boolNotFalse h1])] at he
        by_cases h2 :
            ((doc.getField "cell").truthy && (doc.getField "cell").typeofObject) = false
        · exact h2
        · rw [if_neg (by simp [boolNotFalse h2])] at he
          cases he
    · intro h
      rcases h with h | h
      · exact ⟨_, by rw [parseFC, if_pos (by simp [h])]⟩
      · by_cases h1 : (doc.truthy && doc.typeofObject) = false
        · exact ⟨_, by rw [parseFC, if_pos (by simp [h1])]⟩
        · exact ⟨_, by rw [parseFC, if_neg (by simp [boolNotFalse h1]),
            if_pos (by simp [h])]⟩
  · intro p hp
    by_cases h1 : (doc.truthy && doc.typeofObject) = false
    · rw [parseFC, if_pos (by simp [h1])] at hp
      cases hp
    · rw [parseFC, if_neg (by simp [boolNotFalse h1])] at hp
      by_cases h2 : ((doc.getField "cell").truthy && (doc.getField "cell").typeofObject) = false
      · rw [if_pos (by simp [h2])] at hp
        cases hp
      · rw [if_neg (by simp [boolNotFalse h2])] at hp
        cases hp
        rfl
  · intro h
    simp [extractCell, extractIdentity, h]
  · intro h
    simp [extractCell, extractContract, h]
  · intro h
    simp [extractCell, extractLineage, h]
  · intro h
    simp [extractCell, extractLogic, h]
  · intro h
    rcases hv : raw.getField "signature" with _ | _ | b | n | sv | xs | fs
    all_goals simp [extractCell, extractSignature, hv]
    exact absurd rfl (hv ▸ h sv)
  · intro h
    rcases hv : raw.getField "children" with _ | _ | b | n | sv | xs | fs
    all_goals simp [extractCell, extractChildren, hv]
    exact absurd rfl (hv ▸ h xs)
  · intro h
    rcases hv : raw.getField "channels" with _ | _ | b | n | sv | xs | fs
    all_goals simp [extractCell, extractChannels, hv]
    exact absurd rfl (hv ▸ h xs)
  · intro h
    simp [extractCell, extractConnects, h]

/-- A document whose root cell has no sections at all. -/
def cxDoc : JSValue := .obj [("cell", .obj [])]

/-- Counterexample to C8 as stated: the sectionless cell is accepted, and
the missing identity section comes back with the concrete kind
`"Transformer"` while the missing contract section comes back with the
concrete exhaustion action `"halt"` — deliberate placeholders for the
validator to flag, but defaults nonetheless. -/
theorem parserDefaults_cx :
    parseFC cxDoc = .ok (extractCell (.obj [])) ∧
    (extractCell (.obj [])).identity = ⟨"", "", "Transformer"⟩ ∧
    (extractCell (.obj [])).contract =
      some (.transformer "" "" (some ⟨.fin 0, "halt"⟩)) :=
  ⟨rfl, rfl, rfl⟩

/-- Witness for C8 (amended): a scalar document is rejected; absent
lineage/children of an accepted cell are empty/absent. -/
theorem parseFCBehavior_witness :
    (∃ e, parseFC (JSValue.str "nope") = .error e) ∧
    (extractCell (.obj [])).lineage = ⟨"", "", "", ""⟩ ∧
    (extractCell (.obj [])).children = none := by
  refine ⟨?_, ?_, ?_⟩
  · exact (parseFCBehavior (.str "nope") (.obj [])).1.mpr (Or.inl (by decide))
  · exact (parseFCBehavior (.str "nope") (.obj [])).2.2.2.2.1 (by decide)
  · exact (parseFCBehavior (.str "nope") (.obj [])).2.2.2.2.2.2.2.1
      (fun xs h => absurd h (by simp [JSValue.getField]))
